import Mathlib

/-!
Kargo, `pulumi/go/src/cilium/cilium.go`

A shallow embedding of the two functions of the file, `getHelmValues` and
`deployHelm`, and the properties of the specification settled against them.

Conventions of the embedding:

* a Go `map[string]interface{}` is an association list from keys to `Value`s
  with unique keys; the Go `nil` map is `none`, a map literal is `some _`;
* `log.Fatalln` writes its operands (formatted as `fmt.Sprintln` does) and ends
  the process with `os.Exit(1)`: it is the `fatal` outcome, and nothing after it
  runs;
* the Helm library (`action`, `loader`, `cli`) is an abstract installer backend:
  a record of state-passing operations, each returning a Go `error`
  (`none` is `nil`);
* what `deployHelm` does to the outside world is recorded as a list of `Event`s.
-/

set_option linter.unusedVariables false

namespace Cilium

/-! ## Data model -/

/-- A Go `interface{}` value stored in the Helm values map: the source stores
strings and `[]string` slices only. -/
inductive Value where
  | str (s : String)
  | strs (l : List String)
  deriving DecidableEq, Repr

/-- A non-nil Go `map[string]interface{}`. -/
abbrev GoMap := List (String × Value)

/-- Map read `m[k]`: `none` when the key is absent. -/
def GoMap.get (m : GoMap) (k : String) : Option Value :=
  match m with
  | [] => none
  | (k', v) :: rest => if k' = k then some v else GoMap.get rest k

/-- Map write `m[k] = v`: replaces the entry of an existing key, adds one
otherwise. -/
def GoMap.set (m : GoMap) (k : String) (v : Value) : GoMap :=
  match m with
  | [] => [(k, v)]
  | (k', v') :: rest => if k' = k then (k, v) :: rest else (k', v') :: GoMap.set rest k v

/-- The result of running a Go function: it returns, or the process is ended by
`log.Fatalln` with the logged line. -/
inductive Outcome (α : Type) where
  | ret (a : α)
  | fatal (line : String)
  deriving DecidableEq, Repr

/-- The line `fmt.Sprintln` builds from string operands: operands separated by
a blank, a newline at the end. -/
def sprintln (operands : List String) : String :=
  String.intercalate " " operands ++ "\n"

/-! ## `getHelmValues` -/

/-- The `commonValues` literal of `getHelmValues` (source lines 78-80). -/
def commonValues : GoMap :=
  [("set", Value.str "kubeProxyReplacement=strict,encryption.enabled=true,encryption.type=wireguard,l7Proxy=false,routingMode=tunnel,tunnelProtocol=vxlan,image.pullPolicy=ifNotPresent,l2announcements.enabled=true,hostServices.enabled=true,externalIPs.enabled=true,gatewayAPI.enabled=true,hubble.enabled=true,hubble.relay.enabled=true,hubble.ui.enabled=true,ipam.mode=kubernetes,nodePort.enabled=true,hostPort.enabled=true,operator.replicas=1,serviceAccounts.cilium.name=cilium,serviceAccounts.operator.name=cilium-operator")]

/-- The map literal of the `"kind"` branch (source line 83). -/
def kindLiteral : GoMap :=
  [("set", Value.str "k8sServiceHost=changedvalue,k8sServicePort=6443")]

/-- The map literal of the `"talos"` branch (source line 89). -/
def talosLiteral : GoMap :=
  [("set", Value.str "autoDirectNodeRoutes=true,containerRuntime.integration=containerd,devices=br+ bond+ thunderbolt+,enableRuntimeDeviceDetection=true,endpointRoutes.enabled=true,bpf.masquerade=true,localRedirectPolicy=true,loadBalancer.algorithm=maglev,loadBalancer.mode=dsr,cgroup.autoMount.enabled=false,hostRoot=/sys/fs/cgroup,routingMode=native,ipv4NativeRoutingCIDR=10.244.0.0/16,k8sServicePort=7445,tunnelProtocol=vxlan,k8sServiceHost=127.0.0.1,kubeProxyReplacement=true,image.pullPolicy=ifNotPresent,hostServices.enabled=false,externalIPs.enabled=true,gatewayAPI.enabled=false,nodePort=true,hostPort=true,rollOutCiliumPods=true,operator.replicas=1,operator.rollOutPods=true,cni.install=true,cni.exclusive=false,securitycontext.capabilities.ciliumAgent=nil,securityContext.capabilities.cleanCiliumState=nil")]

/-- The capability list assigned at source line 90. -/
def ciliumAgentCapabilities : List String :=
  ["CHOWN", "KILL", "NET_ADMIN", "NET_RAW", "IPC_LOCK", "SYS_ADMIN", "SYS_RESOURCE",
   "DAC_OVERRIDE", "FOWNER", "SETGID", "SETUID"]

/-- The capability list assigned at source line 91. -/
def cleanCiliumStateCapabilities : List String :=
  ["NET_ADMIN", "SYS_ADMIN", "SYS_RESOURCE"]

/-- Source lines 78-98 of `getHelmValues`: the body after the three assignments
at its top, as a function of the value the variable `kubernetesDistrubition`
holds when line 82 compares it. -/
def getHelmValuesBody (kubernetesDistrubition kubernetesEndpointServiceAddress : String) :
    Outcome (Option GoMap × Option GoMap) :=
  let commonValues := commonValues
  if kubernetesDistrubition = "kind" then
    let m := kindLiteral
    let m := m.set "k8sServiceHost" (Value.str kubernetesEndpointServiceAddress)
    Outcome.ret (some m, some commonValues)
  else if kubernetesDistrubition = "talos" then
    let m := talosLiteral
    let m := m.set "securityContext.capabilities.ciliumAgent" (Value.strs ciliumAgentCapabilities)
    let m := m.set "securityContext.capabilities.cleanCiliumState"
      (Value.strs cleanCiliumStateCapabilities)
    Outcome.ret (some m, some commonValues)
  else
    -- `log.Fatalln` does not format: the verb `%q` stays in the line as written
    Outcome.fatal (sprintln ["Unsupported Kubernetes distribution: %q", kubernetesDistrubition])

/-- `getHelmValues` (source lines 73-99): lines 74-76 assign the empty string to
the parameters `kubernetesDistrubition` and `projectName`, then the body runs on
the values the variables hold. The `return nil, nil` of line 98 follows a
`log.Fatalln` and is never reached. -/
def getHelmValues (kubernetesDistrubition projectName kubernetesEndpointServiceAddress : String) :
    Outcome (Option GoMap × Option GoMap) :=
  let kubernetesDistrubition := ""
  let projectName := ""
  let kubernetesDistrubition := ""
  getHelmValuesBody kubernetesDistrubition kubernetesEndpointServiceAddress

/-- The line `getHelmValues` logs before ending the process: `log.Fatalln`
joins its two operands, the unformatted text and the (emptied) distribution,
with a blank. -/
def unsupportedLine : String := "Unsupported Kubernetes distribution: %q \n"

/-! ## The installer backend -/

/-- A Go `error`: `none` is `nil`, `some e` an error with text `e`. -/
abbrev GoError := Option String

/-- A loaded chart, `chart.Chart`, by its descriptor. -/
abbrev Chart := String

/-- An installed release, `release.Release`, by its descriptor. -/
abbrev Release := String

/-- The fields of `action.Install` that `deployHelm` assigns. -/
structure Install where
  Namespace : String
  ReleaseName : String
  Version : String
  deriving DecidableEq, Repr

/-- The client `action.NewInstall(config)` returns: the three fields hold Go's
zero value. -/
def NewInstall : Install :=
  { Namespace := "", ReleaseName := "", Version := "" }

/-- The Helm operations `deployHelm` calls, over a backend state `σ` (the
cluster, the chart repositories, the `action.Configuration`):
`config.Init`, `client.LocateChart`, `loader.Load` and `client.Run`. Each
operation returns its values and an `error`; a call that panics inside the
library is not represented. -/
structure InstallerBackend (σ : Type) where
  init : σ → String → String → GoError × σ
  locateChart : σ → Install → String → (String × GoError) × σ
  load : σ → String → (Option Chart × GoError) × σ
  run : σ → Install → Option Chart → Option GoMap → (Option Release × GoError) × σ

/-- What `deployHelm` does, in order: the backend calls, each with its
arguments and the `error` it returned, the lines logged with `log.Printf` /
`log.Println`, and the final `fmt.Println(release)`. -/
inductive Event where
  | init (ns helmDriver : String) (err : GoError)
  | locateChart (client : Install) (chartName : String) (err : GoError)
  | load (path : String) (err : GoError)
  | run (client : Install) (chart : Option Chart) (vals : Option GoMap) (err : GoError)
  | log (err : String)
  | print (release : Option Release)
  deriving DecidableEq, Repr

/-- The stages of the install pipeline. -/
inductive Stage where
  | SessionInit
  | ChartLocate
  | ChartLoad
  | Install
  deriving DecidableEq, Repr

/-- The stage a backend call belongs to; `none` for a log line or the print. -/
def Event.stage (e : Event) : Option Stage :=
  match e with
  | Event.init _ _ _ => some Stage.SessionInit
  | Event.locateChart _ _ _ => some Stage.ChartLocate
  | Event.load _ _ => some Stage.ChartLoad
  | Event.run _ _ _ _ => some Stage.Install
  | Event.log _ => none
  | Event.print _ => none

/-- The stages invoked along a trace, in order. -/
def stagesInvoked (trace : List Event) : List Stage :=
  trace.filterMap Event.stage

/-- The handler `if err != nil { log.Println(err) }`: a log line when the error
is not nil, nothing otherwise. Execution goes on in both cases. -/
def logError (err : GoError) : List Event :=
  match err with
  | none => []
  | some e => [Event.log e]

/-! ## `deployHelm` -/

/-- Source lines 41-52 of `deployHelm`: the install client with its namespace,
release name and version assigned. -/
def configureClient (releaseName ns version : String) : Install :=
  let client := NewInstall
  let client := { client with Namespace := ns }
  let client := { client with ReleaseName := releaseName }
  let client :=
    if version = "" then { client with Version := "" } else { client with Version := version }
  let client := { client with Version := version }
  client

/-- Source lines 29-69 of `deployHelm`: the four installer stages, run on the
values `helmValues`. `helmDriver` is `os.Getenv("HELM_DRIVER")`. Returns the
trace and the backend's final state. -/
def deployHelmStages {σ : Type} (backend : InstallerBackend σ) (helmDriver : String) (s : σ)
    (releaseName ns version : String) (helmValues : Option GoMap) : List Event × σ :=
  let chartName := "cilium/cilium"
  let r1 := backend.init s ns helmDriver
  let trace := [Event.init ns helmDriver r1.1] ++ logError r1.1
  let client := configureClient releaseName ns version
  let r2 := backend.locateChart r1.2 client chartName
  let ch := r2.1.1
  let trace := trace ++ [Event.locateChart client chartName r2.1.2] ++ logError r2.1.2
  let r3 := backend.load r2.2 ch
  let chart := r3.1.1
  let trace := trace ++ [Event.load ch r3.1.2] ++ logError r3.1.2
  let r4 := backend.run r3.2 client chart helmValues
  let release := r4.1.1
  let trace := trace ++ [Event.run client chart helmValues r4.1.2] ++ logError r4.1.2
  let trace := trace ++ [Event.print release]
  (trace, r4.2)

/-- A finished run of `deployHelm`: the trace, the backend's final state, and
the line of the `log.Fatalln` that ended the process, if one did. -/
structure Finished (σ : Type) where
  trace : List Event
  state : σ
  fatal : Option String

/-- Source lines 25-71 of `deployHelm`, as a function of what the call of
`getHelmValues` at line 24 produced: a `log.Fatalln` inside `getHelmValues` ends
the process there; a returned pair is bound to `helmValues, err` and the second
map is tested against `nil`. -/
def deployHelmFrom {σ : Type} (backend : InstallerBackend σ) (helmDriver : String) (s : σ)
    (values : Outcome (Option GoMap × Option GoMap)) (releaseName ns version : String) :
    Finished σ :=
  match values with
  | Outcome.fatal line => { trace := [], state := s, fatal := some line }
  | Outcome.ret (helmValues, err) =>
    if err ≠ none then
      { trace := [], state := s, fatal := some (sprintln ["Could Not Retrieve Helm Values"]) }
    else
      let r := deployHelmStages backend helmDriver s releaseName ns version helmValues
      { trace := r.1, state := r.2, fatal := none }

/-- `deployHelm` (source lines 13-71) over an installer backend in state `s`. -/
def deployHelm {σ : Type} (backend : InstallerBackend σ) (helmDriver : String) (s : σ)
    (releaseName kubernetesDistrubition projectName kubernetesEndpointServiceAddress
      ns version l2BridgeName l2Announcements : String) : Finished σ :=
  deployHelmFrom backend helmDriver s
    (getHelmValues kubernetesDistrubition projectName kubernetesEndpointServiceAddress)
    releaseName ns version

/-! ## Concrete backends -/

/-- A backend whose four operations all succeed. -/
def okBackend : InstallerBackend Unit where
  init := fun s _ _ => (none, s)
  locateChart := fun s _ _ => (("/cache/cilium.tgz", none), s)
  load := fun s _ => ((some "cilium", none), s)
  run := fun s client _ _ => ((some client.ReleaseName, none), s)

/-- Whatever its arguments, `getHelmValues` ends in the `log.Fatalln` of its
last branch. -/
theorem getHelmValues_eq_fatal (d p a : String) :
    getHelmValues d p a = Outcome.fatal unsupportedLine := by
  have hk : ¬ ("" : String) = "kind" := by decide
  have ht : ¬ ("" : String) = "talos" := by decide
  simp only [getHelmValues, getHelmValuesBody, if_neg hk, if_neg ht]
  decide

/-- The `"kind"` branch, when the comparison of line 82 sees `"kind"`: the
endpoint address is stored under `k8sServiceHost` and the common table is the
second result. -/
theorem getHelmValuesBody_kind (a : String) :
    getHelmValuesBody "kind" a =
      Outcome.ret (some (kindLiteral.set "k8sServiceHost" (Value.str a)), some commonValues) := by
  simp [getHelmValuesBody]

/-- The `"talos"` branch, when the comparison of line 88 sees `"talos"`. -/
theorem getHelmValuesBody_talos (a : String) :
    getHelmValuesBody "talos" a =
      Outcome.ret
        (some ((talosLiteral.set "securityContext.capabilities.ciliumAgent"
            (Value.strs ciliumAgentCapabilities)).set
            "securityContext.capabilities.cleanCiliumState"
            (Value.strs cleanCiliumStateCapabilities)),
         some commonValues) := by
  simp [getHelmValuesBody]

/-- What the log handler emits: the log line of the error, when there is one. -/
theorem mem_logError_iff (ev : Event) (err : GoError) :
    ev ∈ logError err ↔ ∃ e, err = some e ∧ ev = Event.log e := by
  cases err <;> simp [logError]

/-- `Run` is invoked with the configured client and the values handed to the
stages. -/
theorem run_mem_deployHelmStages {σ : Type} (backend : InstallerBackend σ)
    (helmDriver : String) (s : σ) (releaseName ns version : String)
    (helmValues : Option GoMap) :
    ∃ chart err, Event.run (configureClient releaseName ns version) chart helmValues err ∈
      (deployHelmStages backend helmDriver s releaseName ns version helmValues).1 := by
  simp only [deployHelmStages]
  exact ⟨_, _, List.mem_append_left _ (List.mem_append_left _
    (List.mem_append_right _ (List.mem_singleton.2 rfl)))⟩

/-- The version the configured client carries. -/
theorem configureClient_Version (releaseName ns version : String) :
    (configureClient releaseName ns version).Version = version := by
  simp [configureClient]

/-- Reading the key just written gives the value written. -/
theorem GoMap.get_set_self (m : GoMap) (k : String) (v : Value) :
    GoMap.get (GoMap.set m k v) k = some v := by
  induction m with
  | nil => simp [GoMap.set, GoMap.get]
  | cons kv rest ih =>
    obtain ⟨k1, v1⟩ := kv
    by_cases h : k1 = k
    · simp [GoMap.set, GoMap.get, h]
    · simp [GoMap.set, GoMap.get, h, ih]

/-- Writing a key leaves the other keys as they were. -/
theorem GoMap.get_set_other (m : GoMap) (k j : String) (v : Value) (hne : k ≠ j) :
    GoMap.get (GoMap.set m k v) j = GoMap.get m j := by
  induction m with
  | nil => simp [GoMap.set, GoMap.get, hne]
  | cons kv rest ih =>
    obtain ⟨k1, v1⟩ := kv
    by_cases h : k1 = k
    · subst h
      simp [GoMap.set, GoMap.get, hne]
    · by_cases hj : k1 = j
      · subst hj
        simp [GoMap.set, GoMap.get, h]
      · simp [GoMap.set, GoMap.get, h, hj, ih]

/-- Inside the `"kind"` branch the endpoint address is what `k8sServiceHost`
maps to, for every address: the branch does the substitution. -/
theorem getHelmValuesBody_kind_host (a : String) :
    ∃ m c, getHelmValuesBody "kind" a = Outcome.ret (some m, c) ∧
      GoMap.get m "k8sServiceHost" = some (Value.str a) :=
  ⟨_, _, getHelmValuesBody_kind a, GoMap.get_set_self _ _ _⟩

/-- Inside the `"talos"` branch the two capability keys map to the two lists,
kept as lists of strings. -/
theorem getHelmValuesBody_talos_capabilities (a : String) :
    ∃ m c, getHelmValuesBody "talos" a = Outcome.ret (some m, c) ∧
      GoMap.get m "securityContext.capabilities.ciliumAgent" =
        some (Value.strs ciliumAgentCapabilities) ∧
      GoMap.get m "securityContext.capabilities.cleanCiliumState" =
        some (Value.strs cleanCiliumStateCapabilities) := by
  refine ⟨_, _, getHelmValuesBody_talos a, ?_, GoMap.get_set_self _ _ _⟩
  rw [GoMap.get_set_other _ _ _ _ (by decide)]
  exact GoMap.get_set_self _ _ _

/-! ## The resolver, `getHelmValues` -/

/-- C1, evaluated on the code: `getHelmValues "kind" "proj" "10.0.0.5"` does not
succeed. Line 74 has replaced the distribution by the empty string, so the call
ends in the `log.Fatalln` of the last branch and no returned map sends
`k8sServiceHost` to `"10.0.0.5"`. -/
theorem getHelmValues_kind_host_missing :
    getHelmValues "kind" "proj" "10.0.0.5" = Outcome.fatal unsupportedLine ∧
    ¬ ∃ m c, getHelmValues "kind" "proj" "10.0.0.5" = Outcome.ret (some m, c) ∧
        GoMap.get m "k8sServiceHost" = some (Value.str "10.0.0.5") := by
  refine ⟨getHelmValues_eq_fatal _ _ _, ?_⟩
  rintro ⟨m, c, h, -⟩
  rw [getHelmValues_eq_fatal] at h
  cases h

/-- C2, evaluated on the code: `getHelmValues "talos" "proj" "10.0.0.5"` does
not succeed. It ends in the `log.Fatalln` of the last branch, and no returned
map holds an entry for either capability key. -/
theorem getHelmValues_talos_capabilities_missing :
    getHelmValues "talos" "proj" "10.0.0.5" = Outcome.fatal unsupportedLine ∧
    ¬ ∃ m c, getHelmValues "talos" "proj" "10.0.0.5" = Outcome.ret (some m, c) ∧
        GoMap.get m "securityContext.capabilities.ciliumAgent" =
          some (Value.strs ciliumAgentCapabilities) ∧
        GoMap.get m "securityContext.capabilities.cleanCiliumState" =
          some (Value.strs cleanCiliumStateCapabilities) := by
  refine ⟨getHelmValues_eq_fatal _ _ _, ?_⟩
  rintro ⟨m, c, h, -⟩
  rw [getHelmValues_eq_fatal] at h
  cases h

/-- C3: for a distribution other than `"kind"` and `"talos"`, with any project
name and endpoint address, `getHelmValues` ends in the unsupported-distribution
`log.Fatalln` and returns no pair of maps. -/
theorem getHelmValues_unsupported_rejected (d p a : String)
    (hkind : d ≠ "kind") (htalos : d ≠ "talos") :
    getHelmValues d p a = Outcome.fatal unsupportedLine ∧
    ∀ r : Option GoMap × Option GoMap, getHelmValues d p a ≠ Outcome.ret r := by
  refine ⟨getHelmValues_eq_fatal _ _ _, ?_⟩
  intro r h
  rw [getHelmValues_eq_fatal] at h
  cases h

/-- C3 at the distribution `"openshift"`. -/
theorem getHelmValues_unsupported_rejected_witness :
    getHelmValues "openshift" "proj" "10.0.0.5" = Outcome.fatal unsupportedLine ∧
    ∀ r : Option GoMap × Option GoMap,
      getHelmValues "openshift" "proj" "10.0.0.5" ≠ Outcome.ret r :=
  getHelmValues_unsupported_rejected "openshift" "proj" "10.0.0.5" (by decide) (by decide)

/-- C9: `getHelmValues` ignores its distribution and project name. The body
runs on the empty string, so two calls with the same endpoint address have the
same outcome, and that outcome is the `log.Fatalln` of the last branch: it is
not the return of the `"kind"` branch nor of the `"talos"` branch. -/
theorem getHelmValues_ignores_distribution_and_project (d₁ p₁ d₂ p₂ a : String) :
    getHelmValues d₁ p₁ a = getHelmValues d₂ p₂ a ∧
    getHelmValues d₁ p₁ a = getHelmValuesBody "" a ∧
    getHelmValues d₁ p₁ a = Outcome.fatal unsupportedLine ∧
    getHelmValues d₁ p₁ a ≠ getHelmValuesBody "kind" a ∧
    getHelmValues d₁ p₁ a ≠ getHelmValuesBody "talos" a := by
  refine ⟨?_, rfl, getHelmValues_eq_fatal _ _ _, ?_, ?_⟩
  · rw [getHelmValues_eq_fatal, getHelmValues_eq_fatal]
  · rw [getHelmValues_eq_fatal, getHelmValuesBody_kind]
    intro h
    cases h
  · rw [getHelmValues_eq_fatal, getHelmValuesBody_talos]
    intro h
    cases h

/-! ## The driver, `deployHelm` -/

/-- With `getHelmValues` as it is, `deployHelm` ends in the unsupported
distribution `log.Fatalln` before any backend call, on every input. -/
theorem deployHelm_eq_fatal {σ : Type} (backend : InstallerBackend σ) (helmDriver : String)
    (s : σ) (releaseName d p a ns version l2BridgeName l2Announcements : String) :
    (deployHelm backend helmDriver s releaseName d p a ns version l2BridgeName
        l2Announcements).trace = [] ∧
    (deployHelm backend helmDriver s releaseName d p a ns version l2BridgeName
        l2Announcements).fatal = some unsupportedLine ∧
    (deployHelm backend helmDriver s releaseName d p a ns version l2BridgeName
        l2Announcements).state = s := by
  simp [deployHelm, getHelmValues_eq_fatal, deployHelmFrom]

/-- C4, evaluated on the code: the key `"set"` is in the common table and in
both distribution literals, with different values, yet for `"kind"` and for
`"talos"` `getHelmValues` resolves no parameter set and `deployHelm` over a
backend that always succeeds passes nothing to the installer: no stage runs. -/
theorem merged_set_never_installed :
    GoMap.get commonValues "set" ≠ none ∧
    GoMap.get kindLiteral "set" ≠ none ∧
    GoMap.get talosLiteral "set" ≠ none ∧
    GoMap.get kindLiteral "set" ≠ GoMap.get commonValues "set" ∧
    GoMap.get talosLiteral "set" ≠ GoMap.get commonValues "set" ∧
    getHelmValues "kind" "proj" "10.0.0.5" = Outcome.fatal unsupportedLine ∧
    getHelmValues "talos" "proj" "10.0.0.5" = Outcome.fatal unsupportedLine ∧
    stagesInvoked (deployHelm okBackend "" () "net-1" "kind" "proj" "10.0.0.5" "kube-system"
      "" "" "").trace = [] ∧
    stagesInvoked (deployHelm okBackend "" () "net-1" "talos" "proj" "10.0.0.5" "kube-system"
      "" "" "").trace = [] := by
  refine ⟨by simp [commonValues, GoMap.get], by simp [kindLiteral, GoMap.get],
    by simp [talosLiteral, GoMap.get], by simp [kindLiteral, commonValues, GoMap.get],
    by simp [talosLiteral, commonValues, GoMap.get], getHelmValues_eq_fatal _ _ _,
    getHelmValues_eq_fatal _ _ _, ?_, ?_⟩
  · rw [(deployHelm_eq_fatal _ _ _ _ _ _ _ _ _ _ _).1]
    rfl
  · rw [(deployHelm_eq_fatal _ _ _ _ _ _ _ _ _ _ _).1]
    rfl

/-- C5, evaluated on the code: over a backend whose four operations succeed,
`deployHelm "net-1" "kind" "proj" "192.168.1.10" "kube-system" "" "" ""` makes
no backend call, so the install step is reached zero times, and the process is
ended by the unsupported-distribution `log.Fatalln`. -/
theorem deployHelm_kind_scenario_aborts :
    (deployHelm okBackend "" () "net-1" "kind" "proj" "192.168.1.10" "kube-system"
      "" "" "").trace = [] ∧
    (deployHelm okBackend "" () "net-1" "kind" "proj" "192.168.1.10" "kube-system"
      "" "" "").fatal = some unsupportedLine ∧
    ¬ ∃ client chart vals err, Event.run client chart vals err ∈
      (deployHelm okBackend "" () "net-1" "kind" "proj" "192.168.1.10" "kube-system"
        "" "" "").trace := by
  refine ⟨(deployHelm_eq_fatal _ _ _ _ _ _ _ _ _ _ _).1,
    (deployHelm_eq_fatal _ _ _ _ _ _ _ _ _ _ _).2.1, ?_⟩
  rw [(deployHelm_eq_fatal _ _ _ _ _ _ _ _ _ _ _).1]
  simp

/-- C7: called with a distribution other than `"kind"` and `"talos"`,
`deployHelm` ends in the unsupported-distribution `log.Fatalln` with no backend
call made: the trace is empty and the backend state untouched. -/
theorem deployHelm_unsupported_never_installs {σ : Type} (backend : InstallerBackend σ)
    (helmDriver : String) (s : σ)
    (releaseName d p a ns version l2BridgeName l2Announcements : String)
    (hkind : d ≠ "kind") (htalos : d ≠ "talos") :
    (deployHelm backend helmDriver s releaseName d p a ns version l2BridgeName
        l2Announcements).fatal = some unsupportedLine ∧
    (deployHelm backend helmDriver s releaseName d p a ns version l2BridgeName
        l2Announcements).trace = [] ∧
    (deployHelm backend helmDriver s releaseName d p a ns version l2BridgeName
        l2Announcements).state = s := by
  simp [deployHelm, getHelmValues_eq_fatal, deployHelmFrom]

/-- C7 at the distribution `"openshift"`, over a backend that always
succeeds. -/
theorem deployHelm_unsupported_never_installs_witness :
    (deployHelm okBackend "" () "net-1" "openshift" "proj" "10.0.0.5" "kube-system" "1.14.5"
        "br0" "true").fatal = some unsupportedLine ∧
    (deployHelm okBackend "" () "net-1" "openshift" "proj" "10.0.0.5" "kube-system" "1.14.5"
        "br0" "true").trace = [] ∧
    (deployHelm okBackend "" () "net-1" "openshift" "proj" "10.0.0.5" "kube-system" "1.14.5"
        "br0" "true").state = () :=
  deployHelm_unsupported_never_installs okBackend "" () "net-1" "openshift" "proj" "10.0.0.5"
    "kube-system" "1.14.5" "br0" "true" (by decide) (by decide)

/-! ## The stage sequence of `deployHelm` (source lines 29-69) -/

/-- The stage sequence, once entered, hands `LocateChart` and `Run` a client
whose `Version` is the version argument, on every backend: empty stays empty, a
non-empty version is kept as it is. -/
theorem deployHelmStages_client_Version {σ : Type} (backend : InstallerBackend σ)
    (helmDriver : String) (s : σ) (releaseName ns version : String)
    (helmValues : Option GoMap) :
    (configureClient releaseName ns version).Version = version ∧
    (configureClient releaseName ns "").Version = "" ∧
    (∃ err, Event.locateChart (configureClient releaseName ns version) "cilium/cilium" err ∈
      (deployHelmStages backend helmDriver s releaseName ns version helmValues).1) ∧
    (∀ client chartName err, Event.locateChart client chartName err ∈
        (deployHelmStages backend helmDriver s releaseName ns version helmValues).1 →
      client.Version = version) ∧
    (∀ client chart vals err, Event.run client chart vals err ∈
        (deployHelmStages backend helmDriver s releaseName ns version helmValues).1 →
      client.Version = version) := by
  refine ⟨configureClient_Version _ _ _, configureClient_Version _ _ _, ?_, ?_, ?_⟩
  · refine ⟨(backend.locateChart (backend.init s ns helmDriver).2
      (configureClient releaseName ns version) "cilium/cilium").1.2, ?_⟩
    simp [deployHelmStages]
  · intro client chartName err h
    simp [deployHelmStages, mem_logError_iff] at h
    rw [h.1]
    exact configureClient_Version _ _ _
  · intro client chart vals err h
    simp [deployHelmStages, mem_logError_iff] at h
    rw [h.1]
    exact configureClient_Version _ _ _

/-- C8, evaluated on the code: `deployHelm` passes no version to the installer.
Called with version `"1.14.5"`, and likewise with the empty version, over a
backend whose operations all succeed, it makes no backend call: no client is
handed to `LocateChart` or to `Run`, with that version or any other, because
`getHelmValues` has ended the process at line 24. -/
theorem deployHelm_version_never_reaches_installer :
    (deployHelm okBackend "" () "net-1" "kind" "proj" "10.0.0.5" "kube-system" "1.14.5"
      "" "").trace = [] ∧
    (deployHelm okBackend "" () "net-1" "kind" "proj" "10.0.0.5" "kube-system" "1.14.5"
      "" "").fatal = some unsupportedLine ∧
    (¬ ∃ client chartName err, Event.locateChart client chartName err ∈
      (deployHelm okBackend "" () "net-1" "kind" "proj" "10.0.0.5" "kube-system" "1.14.5"
        "" "").trace) ∧
    (¬ ∃ client chart vals err, Event.run client chart vals err ∈
      (deployHelm okBackend "" () "net-1" "kind" "proj" "10.0.0.5" "kube-system" "1.14.5"
        "" "").trace) ∧
    (deployHelm okBackend "" () "net-1" "kind" "proj" "10.0.0.5" "kube-system" ""
      "" "").trace = [] ∧
    (¬ ∃ client chartName err, Event.locateChart client chartName err ∈
      (deployHelm okBackend "" () "net-1" "kind" "proj" "10.0.0.5" "kube-system" ""
        "" "").trace) := by
  refine ⟨(deployHelm_eq_fatal _ _ _ _ _ _ _ _ _ _ _).1,
    (deployHelm_eq_fatal _ _ _ _ _ _ _ _ _ _ _).2.1, ?_, ?_,
    (deployHelm_eq_fatal _ _ _ _ _ _ _ _ _ _ _).1, ?_⟩
  · rw [(deployHelm_eq_fatal _ _ _ _ _ _ _ _ _ _ _).1]
    simp
  · rw [(deployHelm_eq_fatal _ _ _ _ _ _ _ _ _ _ _).1]
    simp
  · rw [(deployHelm_eq_fatal _ _ _ _ _ _ _ _ _ _ _).1]
    simp

/-! ## The second result of `getHelmValues` as `err` (source lines 24-27) -/

/-- C10: `deployHelm` tests the second map `getHelmValues` returns as its error.
When that map is not nil the process ends in the `log.Fatalln` of line 26 with
no backend call made; the `"kind"` and the `"talos"` branch both return the
common table there. A backend call happens only when the second map is nil, and
then `Run` is invoked, and only ever invoked, with the first map as its values:
the common table is not part of them. -/
theorem second_map_taken_as_error {σ : Type} (backend : InstallerBackend σ)
    (helmDriver : String) (s : σ) (releaseName ns version a : String)
    (helmValues : Option GoMap) (second : GoMap) :
    ((deployHelmFrom backend helmDriver s (Outcome.ret (helmValues, some second))
        releaseName ns version).fatal = some "Could Not Retrieve Helm Values\n" ∧
      (deployHelmFrom backend helmDriver s (Outcome.ret (helmValues, some second))
        releaseName ns version).trace = [] ∧
      (deployHelmFrom backend helmDriver s (Outcome.ret (helmValues, some second))
        releaseName ns version).state = s) ∧
    ((∃ m, getHelmValuesBody "kind" a = Outcome.ret (some m, some commonValues)) ∧
      (∃ m, getHelmValuesBody "talos" a = Outcome.ret (some m, some commonValues))) ∧
    (∀ values, (deployHelmFrom backend helmDriver s values releaseName ns version).trace ≠ [] →
      ∃ first, values = Outcome.ret (first, none)) ∧
    ((deployHelmFrom backend helmDriver s (Outcome.ret (helmValues, none))
        releaseName ns version).fatal = none ∧
      (∃ client chart err, Event.run client chart helmValues err ∈
        (deployHelmFrom backend helmDriver s (Outcome.ret (helmValues, none))
          releaseName ns version).trace) ∧
      (∀ client chart vals err, Event.run client chart vals err ∈
        (deployHelmFrom backend helmDriver s (Outcome.ret (helmValues, none))
          releaseName ns version).trace → vals = helmValues)) := by
  refine ⟨?_, ⟨⟨_, getHelmValuesBody_kind a⟩, ⟨_, getHelmValuesBody_talos a⟩⟩, ?_, ?_, ?_, ?_⟩
  · simp only [deployHelmFrom]
    refine ⟨?_, ?_, ?_⟩
    · simp only [ne_eq, reduceCtorEq, not_false_eq_true, if_true]
      decide
    · simp
    · simp
  · intro values h
    cases values with
    | fatal line => simp [deployHelmFrom] at h
    | ret r =>
      obtain ⟨first, err⟩ := r
      cases err with
      | none => exact ⟨first, rfl⟩
      | some c => simp [deployHelmFrom] at h
  · simp [deployHelmFrom]
  · simp only [deployHelmFrom, ne_eq, not_true_eq_false, if_false]
    obtain ⟨chart, err, h⟩ :=
      run_mem_deployHelmStages backend helmDriver s releaseName ns version helmValues
    exact ⟨_, chart, err, h⟩
  · intro client chart vals err h
    simp [deployHelmFrom, deployHelmStages, mem_logError_iff] at h
    exact h.2.2.1

end Cilium
